import Mathlib

/-!
Verification of the anteacore-client repository (Python) against its
natural-language specification.

The Python modules are shallowly embedded as Lean functions:

* JSON values are modelled by `JValue` (JSON numbers are modelled as
  integers; no floating-point value appears in any claim).
* An HTTP call is modelled by an oracle `Http : Request → Except String
  HttpResponse`; `.error e` means the call raised an exception whose
  `str()` is `e` (transport failure), `.ok r` is a received response.
  `response.json()` is modelled by `HttpResponse.body : Except String
  JValue`, where `.error` means deserialization raised.
* Each Python operation becomes a total Lean function that additionally
  returns the list of HTTP requests it attempted, in order, so that
  "does not reach the network" claims are expressible.
* Wall-clock instants are integers (seconds); `uuid.uuid4()` randomness
  is passed in as an explicit `freshId` argument.
-/

/-- A JSON value as Python's `json.load`/`httpx` deliver it.  Numbers are
modelled as integers. -/
inductive JValue : Type where
  | str  (s : String)
  | int  (n : Int)
  | bool (b : Bool)
  | null
  | list (xs : List JValue)
  | obj  (fields : List (String × JValue))

/-- A JSON object body, as an association list (Python dicts keep
insertion order; keys are unique in any dict produced by `json.load`). -/
abbrev JObj := List (String × JValue)

/-- Python `dict.get k` / `d[k]`: the first binding of `k`. -/
def jLookup (o : JObj) (k : String) : Option JValue :=
  match o with
  | [] => none
  | (k', v) :: rest => if k' = k then some v else jLookup rest k

/-- `d.get k` on a JSON value: only objects support `.get`. -/
def jGet (v : JValue) (k : String) : Option JValue :=
  match v with
  | .obj o => jLookup o k
  | _ => none

/-- Python `d[k] = v`: replace the binding in place if present, else
append it. -/
def jSet (o : JObj) (k : String) (v : JValue) : JObj :=
  match o with
  | [] => [(k, v)]
  | (k', v') :: rest => if k' = k then (k', v) :: rest else (k', v') :: jSet rest k v

/-- Python truthiness of an optional JSON value (`None`, `False`, `0`,
`""`, `[]` and empty objects are falsy). -/
def jTruthy : Option JValue → Bool
  | none => false
  | some (.str s) => !(s = "")
  | some (.int n) => !(n = 0)
  | some (.bool b) => b
  | some .null => false
  | some (.list xs) => !xs.isEmpty
  | some (.obj o) => !o.isEmpty

/-- ASCII whitespace, as Python `str.strip()` removes (strip also
covers rarer Unicode whitespace; every string in the claims is
ASCII). -/
def isSpaceChar (ch : Char) : Bool :=
  ch = ' ' || ch = '\t' || ch = '\n' || ch = '\r' || ch = '\x0b' || ch = '\x0c'

/-- Python `str.strip()`: drop leading and trailing whitespace. -/
def pyStrip (s : String) : String :=
  String.mk (((s.data.dropWhile isSpaceChar).reverse.dropWhile isSpaceChar).reverse)

/-- An outbound HTTP request: method, full URL and JSON payload (for a
GET, the query parameters). -/
structure Request where
  method : String
  url : String
  payload : JValue

/-- A received HTTP response.  `body` is what `response.json()` yields:
`.error e` means deserialization raised an exception rendered as `e`. -/
structure HttpResponse where
  status : Nat
  body : Except String JValue

/-- The network, as an oracle: `.error e` means the HTTP call raised an
exception rendered as `e` (connection refused, timeout, TLS failure). -/
abbrev Http := Request → Except String HttpResponse

/-- httpx `raise_for_status` raises exactly for non-2xx statuses. -/
def is2xx (s : Nat) : Bool := 200 ≤ s && s < 300

/-- The `\x7b"error": str(e)\x7d` mapping every `except` branch returns. -/
def errorObj (e : String) : JValue := .obj [("error", .str e)]

/-- The result mapping contains key `error` bound to a string. -/
def hasErrorString (v : JValue) : Prop :=
  ∃ o s, v = JValue.obj o ∧ jLookup o "error" = some (.str s)

namespace Client

/-! Embedding of `src/anteacore_client/client.py` (`AnteaCoreClient`).
The base URL is the only construction-time state the operations read;
`datetime.now().isoformat()` is passed in as `now_iso`. -/

structure Ctx where
  api_url : String
deriving Repr, DecidableEq

/-- Common shape of `search_knowledge`, `add_pattern`, `get_suggestions`
and `get_stats`: issue the request, `raise_for_status()`, return
`response.json()`; any exception is caught and becomes `errorObj`. -/
def postAndParse (req : Request) (http : Http) : JValue × List Request :=
  match http req with
  | .error e => (errorObj e, [req])
  | .ok r =>
    if is2xx r.status then
      match r.body with
      | .ok v => (v, [req])
      | .error e => (errorObj e, [req])
    else
      -- raise_for_status raised an HTTPStatusError naming the status
      (errorObj ("HTTP status error " ++ toString r.status), [req])

/-- `if s:` over an optional string field: added only when truthy. -/
def optStr (k : String) : Option String → JObj
  | some s => if s = "" then [] else [(k, .str s)]
  | none => []

/-- `if xs:` over an optional string-list field: added only when
non-empty. -/
def optStrList (k : String) : Option (List String) → JObj
  | some xs => if xs.isEmpty then [] else [(k, .list (xs.map .str))]
  | none => []

/-- `AnteaCoreClient.test_connection`. -/
def test_connection (c : Ctx) (http : Http) : JValue × List Request :=
  let req : Request := ⟨"GET", c.api_url ++ "/api/client/health", .null⟩
  match http req with
  | .error e => (.obj [("success", .bool false), ("error", .str e)], [req])
  | .ok r =>
    if r.status = 200 then
      match r.body with
      | .ok (.obj data) =>
          (.obj [("success", .bool true), ("server", .str c.api_url),
                 ("version", (jLookup data "version").getD (.str "Unknown"))], [req])
      -- `.get` on a non-dict raises AttributeError, caught by the except
      | .ok _ => (.obj [("success", .bool false), ("error", .str "AttributeError: get")], [req])
      | .error e => (.obj [("success", .bool false), ("error", .str e)], [req])
    else
      (.obj [("success", .bool false),
             ("error", .str ("Server returned " ++ toString r.status))], [req])

/-- The request `AnteaCoreClient.search_knowledge` issues. -/
def search_request (c : Ctx) (query : String) (category language : Option String)
    (limit : Int) : Request :=
  ⟨"POST", c.api_url ++ "/api/client/knowledge/search",
   .obj ([("query", .str query), ("limit", .int limit)]
     ++ optStr "category" category ++ optStr "language" language)⟩

/-- `AnteaCoreClient.search_knowledge`. -/
def search_knowledge (c : Ctx) (query : String) (category language : Option String)
    (limit : Int) (http : Http) : JValue × List Request :=
  postAndParse (search_request c query category language limit) http

/-- The request `AnteaCoreClient.add_pattern` issues. -/
def add_pattern_request (c : Ctx) (now_iso nm category problem solution : String)
    (code_example language : Option String) (tags : Option (List String)) : Request :=
  ⟨"POST", c.api_url ++ "/api/client/knowledge/patterns",
   .obj ([("name", .str nm), ("category", .str category), ("problem", .str problem),
          ("solution", .str solution), ("source", .str "client_contribution"),
          ("created_at", .str now_iso)]
     ++ optStr "code_example" code_example ++ optStr "language" language
     ++ optStrList "tags" tags)⟩

/-- `AnteaCoreClient.add_pattern`. -/
def add_pattern (c : Ctx) (now_iso nm category problem solution : String)
    (code_example language : Option String) (tags : Option (List String))
    (http : Http) : JValue × List Request :=
  postAndParse (add_pattern_request c now_iso nm category problem solution
    code_example language tags) http

/-- The request `AnteaCoreClient.get_suggestions` issues. -/
def suggestions_request (c : Ctx) (context : String) (file_type language : Option String)
    (frameworks : Option (List String)) : Request :=
  ⟨"POST", c.api_url ++ "/api/client/knowledge/suggest",
   .obj ([("context", .str context)] ++ optStr "file_type" file_type
     ++ optStr "language" language ++ optStrList "frameworks" frameworks)⟩

/-- `AnteaCoreClient.get_suggestions`. -/
def get_suggestions (c : Ctx) (context : String) (file_type language : Option String)
    (frameworks : Option (List String)) (http : Http) : JValue × List Request :=
  postAndParse (suggestions_request c context file_type language frameworks) http

/-- `AnteaCoreClient.get_stats`. -/
def get_stats (c : Ctx) (http : Http) : JValue × List Request :=
  postAndParse ⟨"GET", c.api_url ++ "/api/client/stats", .null⟩ http

/-- `AnteaCoreClient.activate_privileged_mode`.  The middle component is
the privileged token the call installs into the client headers (the one
in-place state mutation of the client). -/
def activate_privileged_mode (c : Ctx) (secret : String) (http : Http) :
    JValue × Option JValue × List Request :=
  let req : Request := ⟨"POST", c.api_url ++ "/api/client/privileged/activate",
    .obj [("secret", .str secret)]⟩
  match http req with
  | .error e => (errorObj e, none, [req])
  | .ok r =>
    if r.status = 200 then
      match r.body with
      | .error e => (errorObj e, none, [req])
      | .ok data =>
        if jTruthy (jGet data "success") then
          match jGet data "token" with
          | some tok => (data, some tok, [req])
          -- data["token"] raises KeyError, caught by the except
          | none => (errorObj "KeyError: token", none, [req])
        else
          -- falls through to `return response.json()` (same parsed body)
          (data, none, [req])
    else
      -- non-200: `return response.json()` returns the body unmodified
      match r.body with
      | .ok data => (data, none, [req])
      | .error e => (errorObj e, none, [req])

/-- The submit request `AnteaCoreClient.report_issue` issues. -/
def report_issue_request (c : Ctx) (now_iso issue : String)
    (error_message context : Option String)
    (attempted_solutions : Option (List String)) : Request :=
  ⟨"POST", c.api_url ++ "/api/client/issues",
   .obj ([("issue", .str issue), ("reported_at", .str now_iso)]
     ++ optStr "error_message" error_message ++ optStr "context" context
     ++ optStrList "attempted_solutions" attempted_solutions)⟩

/-- `AnteaCoreClient.report_issue`: a search (never raises) followed by
the submit POST; the result is built after the POST, so a raising POST
reaches the `except` branch, while a received non-2xx submit response is
only surfaced as `issue_reported: false`. -/
def report_issue (c : Ctx) (now_iso issue : String)
    (error_message context : Option String)
    (attempted_solutions : Option (List String)) (http : Http) :
    JValue × List Request :=
  let sres := search_knowledge c issue (some "troubleshooting") none 10 http
  let req := report_issue_request c now_iso issue error_message context attempted_solutions
  match http req with
  | .error e => (errorObj e, sres.2 ++ [req])
  | .ok r =>
    match sres.1 with
    | .obj o =>
        (.obj [("existing_solutions", (jLookup o "results").getD (.list [])),
               ("issue_reported", .bool (r.status = 200 || r.status = 201))],
         sres.2 ++ [req])
    -- `search_response.get` on a non-dict raises AttributeError
    | _ => (errorObj "AttributeError: get", sres.2 ++ [req])

end Client

namespace Anon

/-! Embedding of `src/anteacore_client/anonymous_identity.py`.  The
session file is modelled as `FileState`: `none` when absent,
`some (.error e)` when reading/parsing it raises (invalid JSON, missing
keys, malformed timestamp), `some (.ok s)` when it parses into a
session.  `datetime.utcnow()` is an integer number of seconds, and the
`uuid.uuid4()` draw is an explicit `freshId` argument. -/

structure AnonymousSession where
  session_id : String
  created_at : Int
  submission_count : Int
deriving Repr, DecidableEq

/-- `timedelta(hours=24)` in seconds. -/
def hours24 : Int := 24 * 3600

/-- `AnonymousSession.is_expired`: `datetime.utcnow() > created_at +
timedelta(hours=24)`. -/
def is_expired (now : Int) (s : AnonymousSession) : Bool :=
  s.created_at + hours24 < now

/-- The persisted session file. -/
abbrev FileState := Option (Except String AnonymousSession)

/-- A fresh `AnonymousSession.__init__` at time `now`. -/
def newSession (now : Int) (freshId : String) : AnonymousSession :=
  ⟨freshId, now, 0⟩

/-- `load_or_create_session`: reuse an unexpired stored session,
otherwise create a fresh one and save it (overwriting the file).
Returns the session together with the resulting file state. -/
def load_or_create_session (file : FileState) (now : Int) (freshId : String) :
    AnonymousSession × FileState :=
  match file with
  | some (.ok s) =>
    if ¬ is_expired now s then (s, file)
    else (newSession now freshId, some (.ok (newSession now freshId)))
  | _ => (newSession now freshId, some (.ok (newSession now freshId)))

/-- `increment_submission_count`: load (or create), bump the counter,
save. -/
def increment_submission_count (file : FileState) (now : Int) (freshId : String) :
    FileState :=
  let s := (load_or_create_session file now freshId).1
  some (.ok { s with submission_count := s.submission_count + 1 })

/-- `clear_session`: delete the file unconditionally. -/
def clear_session (_file : FileState) : FileState := none

/-- One session-store access: a `load_or_create_session` call or an
`increment_submission_count` call, at a wall-clock instant, with the
`uuid4` draw it would use if it had to create. -/
inductive SessionOp : Type where
  | load (now : Int) (freshId : String)
  | increment (now : Int) (freshId : String)
deriving Repr, DecidableEq

def SessionOp.time : SessionOp → Int
  | .load now _ => now
  | .increment now _ => now

/-- Effect of one access on the session file. -/
def runOp (file : FileState) : SessionOp → FileState
  | .load now freshId => (load_or_create_session file now freshId).2
  | .increment now freshId => increment_submission_count file now freshId

/-- Effect of a sequence of accesses on the session file. -/
def runOps (file : FileState) (ops : List SessionOp) : FileState :=
  ops.foldl runOp file

/-- Within the validity window (no access is past `created_at + 24h`),
any mix of loads and increments keeps the stored identifier and creation
time and only ever adds to the counter. -/
theorem runOps_window (ops : List SessionOp) (s : AnonymousSession)
    (h : ∀ op ∈ ops, ¬ s.created_at + hours24 < op.time) :
    ∃ t : Int, s.submission_count ≤ t ∧
      runOps (some (.ok s)) ops =
        some (.ok ⟨s.session_id, s.created_at, t⟩) := by
  induction ops generalizing s with
  | nil => exact ⟨s.submission_count, le_refl _, by simp [runOps]⟩
  | cons op rest ih =>
    have hrest : ∀ o ∈ rest, ¬ s.created_at + hours24 < o.time :=
      fun o ho => h o (by simp [ho])
    cases op with
    | load now freshId =>
      have hop : ¬ s.created_at + hours24 < now := by
        simpa [SessionOp.time] using h (.load now freshId) (by simp)
      have hne : is_expired now s = false := by
        simp [is_expired]; omega
      have hstep : runOp (some (.ok s)) (.load now freshId) = some (.ok s) := by
        simp [runOp, load_or_create_session, hne]
      obtain ⟨t, ht, hk⟩ := ih s hrest
      exact ⟨t, ht, by simpa [runOps, hstep] using hk⟩
    | increment now freshId =>
      have hop : ¬ s.created_at + hours24 < now := by
        simpa [SessionOp.time] using h (.increment now freshId) (by simp)
      have hne : is_expired now s = false := by
        simp [is_expired]; omega
      have hstep : runOp (some (.ok s)) (.increment now freshId) =
          some (.ok { s with submission_count := s.submission_count + 1 }) := by
        simp [runOp, increment_submission_count, load_or_create_session, hne]
      obtain ⟨t, ht, hk⟩ := ih { s with submission_count := s.submission_count + 1 }
        (by simpa using hrest)
      refine ⟨t, by simp at ht; omega, ?_⟩
      simp only [runOps, List.foldl_cons, hstep]
      exact hk

end Anon

namespace Sha

/-! A byte-level SHA-256, used by `identity.py` (`hashlib.sha256(...)
.hexdigest()`) and by the secure dispatcher's rate-limit token.  Words
are natural numbers reduced mod `2 ^ 32`. -/

def w32 : Nat := 4294967296

/-- Rotate a 32-bit word right by `n`, as division plus a shifted
remainder. -/
def rotr (n x : Nat) : Nat := (x / 2 ^ n + x % 2 ^ n * 2 ^ (32 - n)) % w32

/-- Logical right shift. -/
def shr (n x : Nat) : Nat := x / 2 ^ n

/-- The 64 SHA-256 round constants. -/
def K : List Nat :=
  [1116352408, 1899447441, 3049323471, 3921009573, 961987163,
   1508970993, 2453635748, 2870763221, 3624381080, 310598401,
   607225278, 1426881987, 1925078388, 2162078206, 2614888103,
   3248222580, 3835390401, 4022224774, 264347078, 604807628,
   770255983, 1249150122, 1555081692, 1996064986, 2554220882,
   2821834349, 2952996808, 3210313671, 3336571891, 3584528711,
   113926993, 338241895, 666307205, 773529912, 1294757372,
   1396182291, 1695183700, 1986661051, 2177026350, 2456956037,
   2730485921, 2820302411, 3259730800, 3345764771, 3516065817,
   3600352804, 4094571909, 275423344, 430227734, 506948616,
   659060556, 883997877, 958139571, 1322822218, 1537002063,
   1747873779, 1955562222, 2024104815, 2227730452, 2361852424,
   2428436474, 2756734187, 3204031479, 3329325298]

/-- The eight working words of the hash state. -/
structure Hash8 where
  a : Nat
  b : Nat
  c : Nat
  d : Nat
  e : Nat
  f : Nat
  g : Nat
  h : Nat

/-- The SHA-256 initial state. -/
def H0 : Hash8 :=
  ⟨1779033703, 3144134277, 1013904242, 2773480762,
   1359893119, 2600822924, 528734635, 1541459225⟩

/-- Big-endian 32-bit words from a byte stream. -/
def bytesToWords : List Nat → List Nat
  | b0 :: b1 :: b2 :: b3 :: rest =>
      (((b0 * 256 + b1) * 256 + b2) * 256 + b3) :: bytesToWords rest
  | _ => []

/-- Extend the 16 chunk words to the 64-entry message schedule. -/
def schedule (ws : List Nat) : Array Nat :=
  (List.range 48).foldl (fun arr i =>
    let t := i + 16
    let x15 := arr.getD (t - 15) 0
    let x2 := arr.getD (t - 2) 0
    let s0 := rotr 7 x15 ^^^ rotr 18 x15 ^^^ shr 3 x15
    let s1 := rotr 17 x2 ^^^ rotr 19 x2 ^^^ shr 10 x2
    arr.push ((arr.getD (t - 16) 0 + s0 + arr.getD (t - 7) 0 + s1) % w32))
    (Array.mk ws)

/-- One compression round; `kw` is `K[i] + W[i] mod 2^32`. -/
def compressRound (st : Hash8) (kw : Nat) : Hash8 :=
  let s1 := rotr 6 st.e ^^^ rotr 11 st.e ^^^ rotr 25 st.e
  let ch := (st.e &&& st.f) ^^^ (((w32 - 1) ^^^ st.e) &&& st.g)
  let temp1 := (st.h + s1 + ch + kw) % w32
  let s0 := rotr 2 st.a ^^^ rotr 13 st.a ^^^ rotr 22 st.a
  let maj := (st.a &&& st.b) ^^^ (st.a &&& st.c) ^^^ (st.b &&& st.c)
  let temp2 := (s0 + maj) % w32
  ⟨(temp1 + temp2) % w32, st.a, st.b, st.c, (st.d + temp1) % w32, st.e, st.f, st.g⟩

/-- Compress one 64-byte chunk into the state. -/
def compress (st : Hash8) (chunk : List Nat) : Hash8 :=
  let ws := schedule (bytesToWords chunk)
  let fs := (K.zip ws.toList).foldl (fun s kw => compressRound s ((kw.1 + kw.2) % w32)) st
  ⟨(st.a + fs.a) % w32, (st.b + fs.b) % w32, (st.c + fs.c) % w32, (st.d + fs.d) % w32,
   (st.e + fs.e) % w32, (st.f + fs.f) % w32, (st.g + fs.g) % w32, (st.h + fs.h) % w32⟩

/-- Big-endian bytes of a word. -/
def toBytesBE (nbytes v : Nat) : List Nat :=
  (List.range nbytes).map (fun i => v / 2 ^ (8 * (nbytes - 1 - i)) % 256)

/-- SHA-256 padding: `0x80`, zeros to 56 mod 64, 64-bit bit length. -/
def pad (msg : List Nat) : List Nat :=
  let len := msg.length
  let zeros := (64 + 56 - (len + 1) % 64) % 64
  msg ++ [0x80] ++ List.replicate zeros 0 ++ toBytesBE 8 (8 * len)

/-- Fold `compress` over the given number of 64-byte blocks. -/
def processBlocks : Nat → Hash8 → List Nat → Hash8
  | 0, st, _ => st
  | n + 1, st, l => processBlocks n (compress st (l.take 64)) (l.drop 64)

/-- The 32 digest bytes of a byte message. -/
def sha256Bytes (msg : List Nat) : List Nat :=
  let p := pad msg
  let st := processBlocks (p.length / 64) H0 p
  toBytesBE 4 st.a ++ toBytesBE 4 st.b ++ toBytesBE 4 st.c ++ toBytesBE 4 st.d ++
  toBytesBE 4 st.e ++ toBytesBE 4 st.f ++ toBytesBE 4 st.g ++ toBytesBE 4 st.h

/-- Lowercase hexadecimal digit. -/
def hexDigit (n : Nat) : Char := if n < 10 then Char.ofNat (48 + n) else Char.ofNat (87 + n)

/-- Lowercase hex rendering of a byte list. -/
def hexChars (bytes : List Nat) : List Char :=
  bytes.foldr (fun b acc => hexDigit (b / 16) :: hexDigit (b % 16) :: acc) []

/-- `hashlib.sha256(msg).hexdigest()`. -/
def hexdigest (msg : List Nat) : String := String.mk (hexChars (sha256Bytes msg))

/-- UTF-8 bytes of one scalar value (Python `str.encode()`). -/
def utf8EncodeChar (ch : Char) : List Nat :=
  let n := ch.toNat
  if n < 0x80 then [n]
  else if n < 0x800 then [0xC0 + n / 0x40, 0x80 + n % 0x40]
  else if n < 0x10000 then
    [0xE0 + n / 0x1000, 0x80 + n / 0x40 % 0x40, 0x80 + n % 0x40]
  else
    [0xF0 + n / 0x40000, 0x80 + n / 0x1000 % 0x40, 0x80 + n / 0x40 % 0x40, 0x80 + n % 0x40]

/-- `str.encode()`: UTF-8 bytes of a string. -/
def utf8Encode (s : String) : List Nat :=
  s.data.foldr (fun ch acc => utf8EncodeChar ch ++ acc) []

/-- Known-answer test: the embedding computes real SHA-256 (empty
message). -/
theorem hexdigest_nil_kat :
    hexdigest [] = "e3b0c44298fc1c149afbf4c8996fb92427ae41e4649b934ca495991b7852b855" := by
  decide

/-- Known-answer test: `sha256(b"abc")`. -/
theorem hexdigest_abc_kat :
    hexdigest (utf8Encode "abc") =
      "ba7816bf8f01cfea414140de5dae2223b00361a396177a9cb410ff61f20015ad" := by
  decide

theorem length_toBytesBE (nbytes v : Nat) : (toBytesBE nbytes v).length = nbytes := by
  simp [toBytesBE]

/-- The digest always has 32 bytes, whatever the message. -/
theorem length_sha256Bytes (msg : List Nat) : (sha256Bytes msg).length = 32 := by
  simp [sha256Bytes, length_toBytesBE]

theorem length_hexChars (bytes : List Nat) : (hexChars bytes).length = 2 * bytes.length := by
  induction bytes with
  | nil => rfl
  | cons b rest ih => simp [hexChars] at ih ⊢; omega

end Sha

namespace Identity

/-! Embedding of `src/anteacore_client/identity.py`.  One environment
snapshot bundles everything `get_machine_factors` reads: the `platform`
module attributes and home directory (strings, empty when unavailable),
the optional `getmac` MAC address (absent when the import or the lookup
fails, or the address is falsy) and the optional `cpuinfo` brand string
(absent when the import or the query fails; possibly `""`). -/

structure EnvSnapshot where
  node : String
  machine : String
  processor : String
  system : String
  release : String
  home : String
  mac : Option String
  cpu_brand : Option String
deriving Repr, DecidableEq

/-- `get_machine_factors`: the factor dict, in insertion order. -/
def get_machine_factors (env : EnvSnapshot) : List (String × String) :=
  [("node", env.node), ("machine", env.machine), ("processor", env.processor),
   ("system", env.system), ("release", env.release), ("home", env.home)]
  ++ (match env.mac with
      | some m => if m = "" then [] else [("mac", m)]
      | none => [])
  ++ (match env.cpu_brand with
      | some cb => [("cpu_brand", cb)]
      | none => [])

/-- Python tuple ordering on `(key, value)` pairs, as `sorted` uses. -/
def pairLe (x y : String × String) : Bool :=
  x.1 < y.1 || (x.1 = y.1 && x.2 ≤ y.2)

/-- `sorted(factors.items())`. -/
def sortedFactors (env : EnvSnapshot) : List (String × String) :=
  (get_machine_factors env).mergeSort pairLe

/-- `'|'.join(f"\x7bk\x7d:\x7bv\x7d" for k, v in sorted(factors.items()))`. -/
def factor_string (env : EnvSnapshot) : String :=
  String.intercalate "|" ((sortedFactors env).map (fun kv => kv.1 ++ ":" ++ kv.2))

/-- `str(uuid.UUID(hex32))`: the canonical 8-4-4-4-12 form of 32 hex
digits. -/
def uuidFormat (hex32 : List Char) : String :=
  String.mk (hex32.take 8) ++ "-" ++ String.mk ((hex32.drop 8).take 4) ++ "-" ++
  String.mk ((hex32.drop 12).take 4) ++ "-" ++ String.mk ((hex32.drop 16).take 4) ++ "-" ++
  String.mk (hex32.drop 20)

/-- `generate_machine_id`: SHA-256 of the joined sorted factor string,
first 32 hex digits reformatted as a UUID. -/
def generate_machine_id (env : EnvSnapshot) : String :=
  uuidFormat ((Sha.hexChars (Sha.sha256Bytes (Sha.utf8Encode (factor_string env)))).take 32)

end Identity

namespace Secure

/-! Embedding of
`src/anteacore_client/mcp_servers/secure_knowledge_server.py`
(`SecureKnowledgeServer`).  Construction-time environment:
`ANTEACORE_API_URL` / `ANTEACORE_PROJECT_DIR` overrides, `os.getcwd()`,
the identity file, and the two `datetime.utcnow()` renderings the
handlers use (`%Y-%m-%d` and `isoformat`).  `handle_call_tool` is
modelled up to the `TextContent(json.dumps(...))` wrapping: the embedded
dispatcher returns the result object that gets serialized, plus the
requests attempted. -/

/-- `SecureKnowledgeServer.ALLOWED_TOOLS` (a Python set literal, kept in
source order). -/
def ALLOWED_TOOLS : List String :=
  ["search_knowledge", "add_pattern", "report_issue",
   "get_suggestions", "validate_pattern", "get_my_contributions"]

/-- The construction-time environment of the server process. -/
structure InitEnv where
  api_url_env : Option String
  project_dir_env : Option String
  cwd : String
  identity_file : Option (Except String JValue)
  today : String
  now_iso : String

/-- `_load_machine_id`: a missing file raises `RuntimeError`; an
unreadable file lets the `json.load` exception escape (nothing catches
it); a parsed identity without `machine_id` raises `KeyError`.  The
stored `machine_id` value is returned as-is. -/
def load_machine_id (file : Option (Except String JValue)) : Except String JValue :=
  match file with
  | none => .error "Machine identity not found. Run: anteacore-setup"
  | some (.error e) => .error e
  | some (.ok (.obj identity)) =>
    match jLookup identity "machine_id" with
    | some mid => .ok mid
    | none => .error "KeyError: machine_id"
  -- identity["machine_id"] on a non-object raises TypeError
  | some (.ok _) => .error "TypeError: identity is not an object"

/-- The constructed server state (the fields of `self` the handlers
read). -/
structure Ctx where
  api_url : String
  project_dir : String
  version : String
  machine_id : JValue
  today : String
  now_iso : String

/-- The headers the constructed `httpx.AsyncClient` carries. -/
def client_headers (c : Ctx) : List (String × JValue) :=
  [("X-Machine-ID", c.machine_id),
   ("X-Client-Version", .str c.version),
   ("User-Agent", .str ("AnteaCore-Client/" ++ c.version))]

/-- `SecureKnowledgeServer.__init__`: reads the environment overrides
and the identity file; `_load_machine_id` failures propagate, so
construction fails exactly when it does. -/
def server_init (env : InitEnv) : Except String Ctx :=
  match load_machine_id env.identity_file with
  | .error e => .error e
  | .ok mid =>
    .ok { api_url := env.api_url_env.getD "https://api.anteacore.com",
          project_dir := env.project_dir_env.getD env.cwd,
          version := "0.1.0",
          machine_id := mid,
          today := env.today,
          now_iso := env.now_iso }

/-- Python `str()` of a parsed-JSON value, as the f-string in
`_get_ip_hash` renders `self.machine_id`.  Exact for strings (the type
`save_identity` writes), integers, booleans and `None`; container
rendering is abbreviated, it never occurs in an identity file. -/
def pyStr : JValue → String
  | .str s => s
  | .int n => toString n
  | .bool b => if b then "True" else "False"
  | .null => "None"
  | .list _ => "[...]"
  | .obj _ => "\x7b...\x7d"

/-- `_get_ip_hash`: first 16 hex digits of
`sha256(f"\x7bmachine_id\x7d\x7btoday\x7d")`. -/
def get_ip_hash (c : Ctx) : String :=
  String.mk ((Sha.hexChars (Sha.sha256Bytes
    (Sha.utf8Encode (pyStr c.machine_id ++ c.today)))).take 16)

/-- `os.path.basename` for POSIX paths. -/
def basename (p : String) : String := (p.splitOn "/").getLastD ""

def search_url (c : Ctx) : String := c.api_url ++ "/api/client/knowledge/search"

def patterns_url (c : Ctx) : String := c.api_url ++ "/api/client/knowledge/patterns"

def issues_url (c : Ctx) : String := c.api_url ++ "/api/client/issues"

def contributions_url (c : Ctx) : String := c.api_url ++ "/api/client/contributions"

/-- The tail of `handle_search_knowledge` once the clamped `limit` has
been written back into `args`: POST, and map any non-200 status or
exception to an `error` mapping. -/
def search_send (c : Ctx) (args : JObj) (limv : JValue) (http : Http) :
    JValue × List Request :=
  let req : Request := ⟨"POST", search_url c, .obj (jSet args "limit" limv)⟩
  match http req with
  | .error e => (errorObj ("Search error: " ++ e), [req])
  | .ok r =>
    if r.status = 200 then
      match r.body with
      | .ok v => (v, [req])
      | .error e => (errorObj ("Search error: " ++ e), [req])
    else
      (errorObj ("Search failed: " ++ toString r.status), [req])

/-- `handle_search_knowledge`: clamp `limit` (`min(args.get('limit',
10), 50)`), then `search_send`.  A `limit` of a non-numeric type makes
`min` raise `TypeError`, caught before any request is made; a boolean
`limit` is a Python `int` and below 50, so `min` returns the boolean
itself. -/
def handle_search_knowledge (c : Ctx) (args : JObj) (http : Http) :
    JValue × List Request :=
  match jLookup args "limit" with
  | some (.int n) => search_send c args (.int (min n 50)) http
  | some (.bool b) => search_send c args (.bool b) http
  | none => search_send c args (.int 10) http
  | some _ => (errorObj "Search error: TypeError: min", [])

/-- One step of `_validate_content`'s first loop, on one `(field,
value)` item: strings in `problem`/`solution` must keep at least 20
characters after `strip()`, and no string field may exceed 10000
characters. -/
def checkItem (field : String) (v : JValue) : Option String :=
  match v with
  | .str s =>
    if (field = "problem" || field = "solution") && (pyStrip s).length < 20 then
      some (field ++ " is too short or low quality")
    else if s.length > 10000 then
      some (field ++ " is too long")
    else none
  | _ => none

/-- `_validate_content`'s first loop: the first failing item wins. -/
def firstCheckFailure : JObj → Option String
  | [] => none
  | (k, v) :: rest =>
    match checkItem k v with
    | some m => some m
    | none => firstCheckFailure rest

/-- `_validate_content`'s second loop over `required_fields`: a present
field that is falsy, or a string that strips to empty, fails. -/
def requiredCheck (data : JObj) : List String → Option String
  | [] => none
  | f :: rest =>
    match jLookup data f with
    | some v =>
      if !jTruthy (some v) || (match v with | .str s => pyStrip s = "" | _ => false) then
        some (f ++ " cannot be empty")
      else requiredCheck data rest
    | none => requiredCheck data rest

/-- `_validate_content`. -/
def validate_content (data : JObj) : Bool × Option String :=
  match firstCheckFailure data with
  | some m => (false, some m)
  | none =>
    match requiredCheck data ["name", "category", "problem", "solution"] with
    | some m => (false, some m)
    | none => (true, none)

/-- `handle_add_pattern`: validate, enrich with `machine_id`,
`client_version`, `ip_hash` and `project_context`, POST, and remap the
status (200/201 success, 429 rate limit, otherwise API error). -/
def handle_add_pattern (c : Ctx) (args : JObj) (http : Http) :
    JValue × List Request :=
  match validate_content args with
  | (false, msg) =>
    (.obj [("error", .str (msg.getD "")), ("code", .str "VALIDATION_ERROR")], [])
  | (true, _) =>
    let pattern_data :=
      jSet (jSet (jSet (jSet args "machine_id" c.machine_id)
        "client_version" (.str c.version))
        "ip_hash" (.str (get_ip_hash c)))
        "project_context" (.obj [("directory", .str (basename c.project_dir)),
                                 ("timestamp", .str c.now_iso)])
    let req : Request := ⟨"POST", patterns_url c, .obj pattern_data⟩
    match http req with
    | .error e => (errorObj ("Error adding pattern: " ++ e), [req])
    | .ok r =>
      if r.status = 200 || r.status = 201 then
        match r.body with
        | .ok (.obj result) =>
            (.obj [("success", .bool true),
                   ("pattern_id", (jLookup result "pattern_id").getD .null),
                   ("message", .str "Pattern submitted successfully"),
                   ("status", (jLookup result "status").getD (.str "pending_review"))], [req])
        -- `.get` on a non-dict body raises, caught by the except
        | .ok _ => (errorObj "Error adding pattern: AttributeError: get", [req])
        | .error e => (errorObj ("Error adding pattern: " ++ e), [req])
      else if r.status = 429 then
        (.obj [("error", .str "Rate limit exceeded. Please try again later."),
               ("code", .str "RATE_LIMIT")], [req])
      else
        (.obj [("error", .str ("Failed to add pattern: " ++ toString r.status)),
               ("code", .str "API_ERROR")], [req])

/-- `handle_report_issue`: a ten-character floor on the stripped issue
text, then POST with `machine_id` and `reported_at` added. -/
def report_issue_send (c : Ctx) (args : JObj) (issue : String) (http : Http) :
    JValue × List Request :=
  if (pyStrip issue).length < 10 then
    (.obj [("error", .str "Issue description too short")], [])
  else
    let issue_data := jSet (jSet args "machine_id" c.machine_id)
      "reported_at" (.str c.now_iso)
    let req : Request := ⟨"POST", issues_url c, .obj issue_data⟩
    match http req with
    | .error e => (errorObj ("Error reporting issue: " ++ e), [req])
    | .ok r =>
      if r.status = 200 || r.status = 201 then
        match r.body with
        | .ok v => (v, [req])
        | .error e => (errorObj ("Error reporting issue: " ++ e), [req])
      else
        (errorObj ("Failed to report issue: " ++ toString r.status), [req])

def handle_report_issue (c : Ctx) (args : JObj) (http : Http) :
    JValue × List Request :=
  match jLookup args "issue" with
  | some (.str s) => report_issue_send c args s http
  | none => report_issue_send c args "" http
  -- `.strip()` on a non-string raises AttributeError, caught
  | some _ => (errorObj "Error reporting issue: AttributeError: strip", [])

/-- `handle_get_my_contributions`: clamp `limit` to 100 (default 10)
and GET. -/
def contributions_send (c : Ctx) (limv : JValue) (http : Http) :
    JValue × List Request :=
  let req : Request := ⟨"GET", contributions_url c, .obj [("limit", limv)]⟩
  match http req with
  | .error e => (errorObj ("Error getting contributions: " ++ e), [req])
  | .ok r =>
    if r.status = 200 then
      match r.body with
      | .ok v => (v, [req])
      | .error e => (errorObj ("Error getting contributions: " ++ e), [req])
    else
      (errorObj "Failed to get contributions", [req])

def handle_get_my_contributions (c : Ctx) (args : JObj) (http : Http) :
    JValue × List Request :=
  match jLookup args "limit" with
  | some (.int n) => contributions_send c (.int (min n 100)) http
  | some (.bool b) => contributions_send c (.bool b) http
  | none => contributions_send c (.int 10) http
  | some _ => (errorObj "Error getting contributions: TypeError: min", [])

/-- The `\x7berror, allowed_tools\x7d` result for a tool outside the
allow-list. -/
def not_allowed_result (toolName : String) : JValue :=
  .obj [("error", .str ("Tool '" ++ toolName ++ "' is not allowed for client access")),
        ("allowed_tools", .list (ALLOWED_TOOLS.map .str))]

/-- `handle_call_tool` (inside `run`): allow-list check, then dispatch
by name; `get_suggestions` and `validate_pattern` are reduced-argument
search calls. -/
def handle_call_tool (c : Ctx) (toolName : String) (args : JObj) (http : Http) :
    JValue × List Request :=
  if toolName ∉ ALLOWED_TOOLS then
    (not_allowed_result toolName, [])
  else if toolName = "search_knowledge" then
    handle_search_knowledge c args http
  else if toolName = "add_pattern" then
    handle_add_pattern c args http
  else if toolName = "report_issue" then
    handle_report_issue c args http
  else if toolName = "get_suggestions" then
    handle_search_knowledge c
      [("query", (jLookup args "context").getD (.str "")), ("limit", .int 5)] http
  else if toolName = "validate_pattern" then
    handle_search_knowledge c
      [("query", (jLookup args "pattern_description").getD (.str "")), ("limit", .int 3)] http
  else if toolName = "get_my_contributions" then
    handle_get_my_contributions c args http
  else
    (.obj [("error", .str ("Tool '" ++ toolName ++ "' not implemented"))], [])

end Secure

/-! ## Shared lemmas and concrete fixtures -/

theorem jLookup_jSet_self (o : JObj) (k : String) (v : JValue) :
    jLookup (jSet o k v) k = some v := by
  induction o with
  | nil => simp [jSet, jLookup]
  | cons kv rest ih =>
    obtain ⟨k', v'⟩ := kv
    by_cases h : k' = k <;> simp [jSet, jLookup, h, ih]

theorem errorObj_hasErrorString (e : String) : hasErrorString (errorObj e) :=
  ⟨[("error", .str e)], e, rfl, by simp [jLookup]⟩

/-- A server fixture: any constructed state. -/
def exSrv : Secure.Ctx :=
  ⟨"https://api.anteacore.com", "/home/dev/project", "0.1.0",
   .str "3f2a9cde-17b4-4abc-8def-0123456789ab", "2025-06-01", "2025-06-01T12:00:00"⟩

/-- An oracle answering every request with a 200 and a small body. -/
def exHttpOk : Http := fun _ => .ok ⟨200, .ok (.obj [("results", .list [])])⟩

/-- `search_send` always attempts exactly its one request, whatever the
oracle answers. -/
theorem search_send_log (c : Secure.Ctx) (args : JObj) (limv : JValue) (http : Http) :
    (Secure.search_send c args limv http).2 =
      [⟨"POST", Secure.search_url c, .obj (jSet args "limit" limv)⟩] := by
  rcases hh : http ⟨"POST", Secure.search_url c, .obj (jSet args "limit" limv)⟩ with e | r
  · simp [Secure.search_send, hh]
  · obtain ⟨st, body⟩ := r
    rcases body with pe | v <;>
      simp [Secure.search_send, hh] <;> split <;> simp

/-- `contributions_send` always attempts exactly its one request. -/
theorem contributions_send_log (c : Secure.Ctx) (limv : JValue) (http : Http) :
    (Secure.contributions_send c limv http).2 =
      [⟨"GET", Secure.contributions_url c, .obj [("limit", limv)]⟩] := by
  rcases hh : http ⟨"GET", Secure.contributions_url c, .obj [("limit", limv)]⟩ with e | r
  · simp [Secure.contributions_send, hh]
  · obtain ⟨st, body⟩ := r
    rcases body with pe | v <;>
      simp [Secure.contributions_send, hh] <;> split <;> simp

/-- Every request `handle_search_knowledge` attempts is a POST to the
search endpoint. -/
theorem mem_handle_search_log (c : Secure.Ctx) (args : JObj) (http : Http) (req : Request)
    (h : req ∈ (Secure.handle_search_knowledge c args http).2) :
    req.method = "POST" ∧ req.url = Secure.search_url c := by
  rcases hl : jLookup args "limit" with _ | v
  · rw [Secure.handle_search_knowledge, hl, search_send_log] at h
    simp at h; subst h; exact ⟨rfl, rfl⟩
  · cases v <;> rw [Secure.handle_search_knowledge, hl] at h
    case str => simp at h
    case int n =>
      rw [search_send_log] at h; simp at h; subst h; exact ⟨rfl, rfl⟩
    case bool b =>
      rw [search_send_log] at h; simp at h; subst h; exact ⟨rfl, rfl⟩
    case null => simp at h
    case list => simp at h
    case obj => simp at h

/-! ## C4 — allow-list enforcement -/

/-- C4: for every tool name outside the fixed allow-list and every
argument mapping, the secure dispatcher returns the error-plus-
allowed-tools result and attempts no HTTP request (so the Remote Client
and the network are never reached). -/
theorem allow_list_enforcement (c : Secure.Ctx) (toolName : String) (args : JObj)
    (http : Http) (h : toolName ∉ Secure.ALLOWED_TOOLS) :
    Secure.handle_call_tool c toolName args http =
      (.obj [("error", .str ("Tool '" ++ toolName ++ "' is not allowed for client access")),
             ("allowed_tools", .list (Secure.ALLOWED_TOOLS.map .str))], []) := by
  simp [Secure.handle_call_tool, Secure.not_allowed_result, h]

/-- C4 witness at the concrete tool name `delete_pattern`. -/
theorem allow_list_enforcement_witness :
    Secure.handle_call_tool exSrv "delete_pattern" [] exHttpOk =
      (.obj [("error", .str "Tool 'delete_pattern' is not allowed for client access"),
             ("allowed_tools", .list (Secure.ALLOWED_TOOLS.map .str))], []) :=
  allow_list_enforcement exSrv "delete_pattern" [] exHttpOk (by decide)

/-! ## C9 — get_suggestions / validate_pattern are search calls -/

theorem search_url_ne_suggest (s : String) :
    s ++ "/api/client/knowledge/search" ≠ s ++ "/api/client/knowledge/suggest" := by
  intro h
  have h2 := congrArg String.length h
  rw [String.length_append, String.length_append] at h2
  have h3 : ("/api/client/knowledge/search" : String).length =
      ("/api/client/knowledge/suggest" : String).length := by omega
  exact absurd h3 (by decide)

/-- C9: dispatching `get_suggestions` is exactly the search handler on
`\x7bquery: context, limit: 5\x7d`, dispatching `validate_pattern` is
exactly the search handler on `\x7bquery: pattern_description, limit:
3\x7d`, and every request either attempts goes to the search endpoint —
never to a suggest endpoint. -/
theorem suggestions_and_validate_delegate (c : Secure.Ctx) (args : JObj) (http : Http) :
    (Secure.handle_call_tool c "get_suggestions" args http =
      Secure.handle_search_knowledge c
        [("query", (jLookup args "context").getD (.str "")), ("limit", .int 5)] http) ∧
    (Secure.handle_call_tool c "validate_pattern" args http =
      Secure.handle_search_knowledge c
        [("query", (jLookup args "pattern_description").getD (.str "")), ("limit", .int 3)] http) ∧
    (∀ req : Request,
       req ∈ (Secure.handle_call_tool c "get_suggestions" args http).2 ∨
       req ∈ (Secure.handle_call_tool c "validate_pattern" args http).2 →
       req.url = Secure.search_url c ∧
       req.url ≠ c.api_url ++ "/api/client/knowledge/suggest") := by
  refine ⟨rfl, rfl, ?_⟩
  intro req hmem
  have hurl : req.url = Secure.search_url c := by
    rcases hmem with hmem | hmem
    · exact (mem_handle_search_log c _ http req (by rw [show (Secure.handle_call_tool c "get_suggestions" args http) = Secure.handle_search_knowledge c [("query", (jLookup args "context").getD (.str "")), ("limit", .int 5)] http from rfl] at hmem; exact hmem)).2
    · exact (mem_handle_search_log c _ http req (by rw [show (Secure.handle_call_tool c "validate_pattern" args http) = Secure.handle_search_knowledge c [("query", (jLookup args "pattern_description").getD (.str "")), ("limit", .int 3)] http from rfl] at hmem; exact hmem)).2
  refine ⟨hurl, ?_⟩
  rw [hurl]
  exact search_url_ne_suggest c.api_url

/-- C9 witness at a concrete context argument and oracle. -/
theorem suggestions_and_validate_delegate_witness :
    (Secure.handle_call_tool exSrv "get_suggestions" [("context", .str "deploy fails")] exHttpOk =
      Secure.handle_search_knowledge exSrv
        [("query", .str "deploy fails"), ("limit", .int 5)] exHttpOk) ∧
    (⟨"POST", Secure.search_url exSrv,
      .obj [("query", .str "deploy fails"), ("limit", .int 5)]⟩ : Request).url =
        Secure.search_url exSrv := by
  have h := suggestions_and_validate_delegate exSrv [("context", .str "deploy fails")] exHttpOk
  refine ⟨h.1, ?_⟩
  refine (h.2.2 _ (Or.inl ?_)).1
  have hl : (Secure.handle_call_tool exSrv "get_suggestions"
      [("context", .str "deploy fails")] exHttpOk).2 =
      [⟨"POST", Secure.search_url exSrv,
        .obj [("query", .str "deploy fails"), ("limit", .int 5)]⟩] := rfl
  rw [hl]
  simp

/-! ## C10 — limit clamping -/

/-- C10: a search through the secure dispatcher always sends `limit` at
most 50 (the caller's integer is clamped with `min`, and 10 is used when
absent), and `get_my_contributions` sends at most 100 (default 10); an
over-cap limit still produces the one request — clamped, not
rejected. -/
theorem limit_clamping (c : Secure.Ctx) (args : JObj) (http : Http) (n : Int) :
    (jLookup args "limit" = none →
       ∃ req, (Secure.handle_search_knowledge c args http).2 = [req] ∧
         jGet req.payload "limit" = some (.int 10)) ∧
    (jLookup args "limit" = some (.int n) →
       ∃ req, (Secure.handle_search_knowledge c args http).2 = [req] ∧
         jGet req.payload "limit" = some (.int (min n 50)) ∧ min n 50 ≤ 50) ∧
    (jLookup args "limit" = none →
       ∃ req, (Secure.handle_get_my_contributions c args http).2 = [req] ∧
         jGet req.payload "limit" = some (.int 10)) ∧
    (jLookup args "limit" = some (.int n) →
       ∃ req, (Secure.handle_get_my_contributions c args http).2 = [req] ∧
         jGet req.payload "limit" = some (.int (min n 100)) ∧ min n 100 ≤ 100) := by
  refine ⟨?_, ?_, ?_, ?_⟩
  · intro h
    refine ⟨⟨"POST", Secure.search_url c, .obj (jSet args "limit" (.int 10))⟩, ?_, ?_⟩
    · simp only [Secure.handle_search_knowledge, h]
      exact search_send_log c args (.int 10) http
    · simp [jGet, jLookup_jSet_self]
  · intro h
    refine ⟨⟨"POST", Secure.search_url c, .obj (jSet args "limit" (.int (min n 50)))⟩, ?_, ?_, ?_⟩
    · simp only [Secure.handle_search_knowledge, h]
      exact search_send_log c args (.int (min n 50)) http
    · simp [jGet, jLookup_jSet_self]
    · exact min_le_right n 50
  · intro h
    refine ⟨⟨"GET", Secure.contributions_url c, .obj [("limit", .int 10)]⟩, ?_, ?_⟩
    · simp only [Secure.handle_get_my_contributions, h]
      exact contributions_send_log c (.int 10) http
    · simp [jGet, jLookup]
  · intro h
    refine ⟨⟨"GET", Secure.contributions_url c, .obj [("limit", .int (min n 100))]⟩, ?_, ?_, ?_⟩
    · simp only [Secure.handle_get_my_contributions, h]
      exact contributions_send_log c (.int (min n 100)) http
    · simp [jGet, jLookup]
    · exact min_le_right n 100

/-- C10 witness: an over-cap caller limit of 999 is clamped to 50
(search) and 100 (contributions), and the request is still made. -/
theorem limit_clamping_witness :
    (∃ req, (Secure.handle_search_knowledge exSrv [("limit", .int 999)] exHttpOk).2 = [req] ∧
       jGet req.payload "limit" = some (.int 50)) ∧
    (∃ req, (Secure.handle_get_my_contributions exSrv [("limit", .int 999)] exHttpOk).2 = [req] ∧
       jGet req.payload "limit" = some (.int 100)) := by
  have h := limit_clamping exSrv [("limit", .int 999)] exHttpOk 999
  obtain ⟨r1, hr1, hv1, -⟩ := h.2.1 rfl
  obtain ⟨r2, hr2, hv2, -⟩ := h.2.2.2 rfl
  exact ⟨⟨r1, hr1, hv1⟩, ⟨r2, hr2, hv2⟩⟩


/-! ## C5 — add_pattern validation gating -/

/-- If some `problem`/`solution` field holds a string under 20
characters after trimming, the first validation loop fails. -/
theorem firstCheckFailure_of_short (args : JObj) (f s : String)
    (hf : f = "problem" ∨ f = "solution") (hmem : (f, JValue.str s) ∈ args)
    (hshort : (pyStrip s).length < 20) :
    ∃ m, Secure.firstCheckFailure args = some m := by
  induction args with
  | nil => simp at hmem
  | cons kv rest ih =>
    obtain ⟨k0, v0⟩ := kv
    rcases List.mem_cons.mp hmem with heq | hmem'
    · have hk : f = k0 := congrArg Prod.fst heq
      have hv : JValue.str s = v0 := congrArg Prod.snd heq
      subst hk
      subst hv
      refine ⟨f ++ " is too short or low quality", ?_⟩
      rcases hf with rfl | rfl <;>
        simp [Secure.firstCheckFailure, Secure.checkItem, hshort]
    · cases hcheck : Secure.checkItem k0 v0 with
      | some m => exact ⟨m, by simp [Secure.firstCheckFailure, hcheck]⟩
      | none =>
        obtain ⟨m, hm⟩ := ih hmem'
        exact ⟨m, by simp [Secure.firstCheckFailure, hcheck, hm]⟩

/-- C5 (amended: the dispatcher's own floor for `solution` is 20
characters, not 30): an `add_pattern` whose `problem` or `solution`
string is shorter than 20 characters after trimming gets a
`VALIDATION_ERROR` result and no HTTP request is attempted. -/
theorem add_pattern_validation_gate (c : Secure.Ctx) (args : JObj) (http : Http)
    (f s : String) (hf : f = "problem" ∨ f = "solution")
    (hmem : (f, JValue.str s) ∈ args) (hshort : (pyStrip s).length < 20) :
    ∃ m, Secure.handle_add_pattern c args http =
      (.obj [("error", .str m), ("code", .str "VALIDATION_ERROR")], []) := by
  obtain ⟨m, hm⟩ := firstCheckFailure_of_short args f s hf hmem hshort
  exact ⟨m, by simp [Secure.handle_add_pattern, Secure.validate_content, hm]⟩

/-- C5 witness: a nine-character `problem` is rejected without any
request. -/
theorem add_pattern_validation_gate_witness :
    ∃ m, Secure.handle_add_pattern exSrv
        [("name", .str "A valid name"), ("problem", .str "too short")] exHttpOk =
      (.obj [("error", .str m), ("code", .str "VALIDATION_ERROR")], []) :=
  add_pattern_validation_gate exSrv
    [("name", .str "A valid name"), ("problem", .str "too short")] exHttpOk
    "problem" "too short" (Or.inl rfl)
    (List.mem_cons_of_mem _ (List.mem_cons_self _ _)) (by decide)

/-- Arguments whose trimmed `solution` has 25 characters: at least 20,
but fewer than the 30 the claim states. -/
def addPatternCexArgs : JObj :=
  [("name", .str "Pattern name here"), ("category", .str "general"),
   ("problem", .str "This problem statement is long enough to pass."),
   ("solution", .str "Only twenty-five chars!!!")]

/-- C5 counterexample: with a trimmed `solution` of 25 characters (< 30)
the handler does NOT return a validation error — it sends the HTTP
request and returns the success mapping, refuting the claim's
30-character floor for `solution`. -/
theorem add_pattern_validation_gate_cex :
    (pyStrip "Only twenty-five chars!!!").length = 25 ∧
    (Secure.handle_add_pattern exSrv addPatternCexArgs exHttpOk).2.length = 1 ∧
    jGet (Secure.handle_add_pattern exSrv addPatternCexArgs exHttpOk).1 "error" = none :=
  ⟨by decide, rfl, rfl⟩

/-! ## C8 — secure dispatcher construction requires an identity -/

/-- C8: constructing the secure dispatcher with no machine-identity file
raises (`server_init` is an `.error`), and whenever the file exists and
parses to an object containing `machine_id`, construction succeeds and
carries that identifier in the `X-Machine-ID` request header. -/
theorem secure_init_identity (env : Secure.InitEnv) (o : JObj) (mid : JValue)
    (hmid : jLookup o "machine_id" = some mid) :
    (env.identity_file = none →
       Secure.server_init env = .error "Machine identity not found. Run: anteacore-setup") ∧
    (env.identity_file = some (.ok (.obj o)) →
       ∃ c, Secure.server_init env = .ok c ∧ c.machine_id = mid ∧
         ("X-Machine-ID", mid) ∈ Secure.client_headers c) := by
  constructor
  · intro h
    simp [Secure.server_init, Secure.load_machine_id, h]
  · intro h
    refine ⟨{ api_url := env.api_url_env.getD "https://api.anteacore.com",
              project_dir := env.project_dir_env.getD env.cwd,
              version := "0.1.0", machine_id := mid,
              today := env.today, now_iso := env.now_iso }, ?_, rfl, ?_⟩
    · simp [Secure.server_init, Secure.load_machine_id, h, hmid]
    · simp [Secure.client_headers]

/-- C8 witness: both branches at concrete environments. -/
theorem secure_init_identity_witness :
    (Secure.server_init ⟨none, none, "/work", none, "2025-06-01", "2025-06-01T12:00:00"⟩ =
       .error "Machine identity not found. Run: anteacore-setup") ∧
    (∃ c, Secure.server_init
        ⟨none, none, "/work",
         some (.ok (.obj [("machine_id", .str "m-1"), ("version", .str "0.1.0")])),
         "2025-06-01", "2025-06-01T12:00:00"⟩ = .ok c ∧
       c.machine_id = .str "m-1" ∧
       ("X-Machine-ID", JValue.str "m-1") ∈ Secure.client_headers c) := by
  constructor
  · exact (secure_init_identity
      ⟨none, none, "/work", none, "2025-06-01", "2025-06-01T12:00:00"⟩
      [("machine_id", .str "m-1")] (.str "m-1") rfl).1 rfl
  · exact (secure_init_identity
      ⟨none, none, "/work",
       some (.ok (.obj [("machine_id", .str "m-1"), ("version", .str "0.1.0")])),
       "2025-06-01", "2025-06-01T12:00:00"⟩
      [("machine_id", .str "m-1"), ("version", .str "0.1.0")] (.str "m-1") rfl).2 rfl

/-! ## C2 — session expiry -/

/-- C2: a persisted session whose `created_at` lies more than 24 hours
before the current time is expired, loading it yields the freshly
generated identifier — never the stale one — and `is_expired` is a
function of the current time and `created_at + 24h` alone. -/
theorem session_expiry (file : Anon.FileState) (s : Anon.AnonymousSession)
    (now : Int) (freshId : String)
    (hf : file = some (.ok s)) (hold : Anon.hours24 < now - s.created_at) :
    Anon.is_expired now s = true ∧
    (Anon.load_or_create_session file now freshId).1 = Anon.newSession now freshId ∧
    (freshId ≠ s.session_id →
      (Anon.load_or_create_session file now freshId).1.session_id ≠ s.session_id) ∧
    (∀ s' : Anon.AnonymousSession, s'.created_at = s.created_at →
      Anon.is_expired now s' = Anon.is_expired now s) := by
  have he : Anon.is_expired now s = true := by
    simp [Anon.is_expired]; omega
  subst hf
  refine ⟨he, ?_, ?_, ?_⟩
  · simp [Anon.load_or_create_session, he]
  · intro hne
    have hid : (Anon.load_or_create_session (some (.ok s)) now freshId).1.session_id =
        freshId := by
      simp [Anon.load_or_create_session, he, Anon.newSession]
    rw [hid]; exact hne
  · intro s' hs'
    simp [Anon.is_expired, hs']

/-- C2 witness: a session created at time 0, loaded at time 90000
(25 hours later). -/
theorem session_expiry_witness :
    Anon.is_expired 90000 ⟨"old-id", 0, 3⟩ = true ∧
    (Anon.load_or_create_session (some (.ok ⟨"old-id", 0, 3⟩)) 90000 "new-id").1 =
      Anon.newSession 90000 "new-id" ∧
    (Anon.load_or_create_session (some (.ok ⟨"old-id", 0, 3⟩)) 90000 "new-id").1.session_id ≠
      "old-id" := by
  have h := session_expiry (some (.ok ⟨"old-id", 0, 3⟩)) ⟨"old-id", 0, 3⟩ 90000 "new-id"
    rfl (by decide)
  exact ⟨h.1, h.2.1, h.2.2.1 (by decide)⟩

/-! ## C7 — session determinism within the validity window -/

/-- C7: starting from a session file created less than 24 hours before
every access and never cleared, a load, then any mix of loads and
counter increments, then a second load: both loads observe the same
session identifier, and the counter observed second is at least the
counter observed first. -/
theorem session_window_determinism (s : Anon.AnonymousSession) (ops : List Anon.SessionOp)
    (t1 t2 : Int) (fid1 fid2 : String)
    (h1 : ¬ s.created_at + Anon.hours24 < t1)
    (h2 : ¬ s.created_at + Anon.hours24 < t2)
    (hops : ∀ op ∈ ops, ¬ s.created_at + Anon.hours24 < op.time) :
    (Anon.load_or_create_session (some (.ok s)) t1 fid1).1.session_id =
      (Anon.load_or_create_session
        (Anon.runOps (Anon.load_or_create_session (some (.ok s)) t1 fid1).2 ops)
        t2 fid2).1.session_id ∧
    (Anon.load_or_create_session (some (.ok s)) t1 fid1).1.submission_count ≤
      (Anon.load_or_create_session
        (Anon.runOps (Anon.load_or_create_session (some (.ok s)) t1 fid1).2 ops)
        t2 fid2).1.submission_count := by
  have hne1 : Anon.is_expired t1 s = false := by
    simp [Anon.is_expired]; omega
  have hfirst : Anon.load_or_create_session (some (.ok s)) t1 fid1 = (s, some (.ok s)) := by
    simp [Anon.load_or_create_session, hne1]
  obtain ⟨t, ht, hrun⟩ := Anon.runOps_window ops s hops
  have hne2 : Anon.is_expired t2 (⟨s.session_id, s.created_at, t⟩ : Anon.AnonymousSession)
      = false := by
    simp [Anon.is_expired]; omega
  rw [hfirst]
  simp only [hrun]
  constructor
  · simp [Anon.load_or_create_session, hne2]
  · simp only [Anon.load_or_create_session, hne2, Bool.not_eq_true, if_pos]
    simpa using ht

/-- C7 witness: two increments at times 100 and 200 between loads at
times 50 and 300, all inside the window of a session created at 0. -/
theorem session_window_determinism_witness :
    (Anon.load_or_create_session (some (.ok ⟨"sid", 0, 0⟩)) 50 "f1").1.session_id =
      (Anon.load_or_create_session
        (Anon.runOps (Anon.load_or_create_session (some (.ok ⟨"sid", 0, 0⟩)) 50 "f1").2
          [.increment 100 "x1", .increment 200 "x2"])
        300 "f2").1.session_id ∧
    (Anon.load_or_create_session (some (.ok ⟨"sid", 0, 0⟩)) 50 "f1").1.submission_count ≤
      (Anon.load_or_create_session
        (Anon.runOps (Anon.load_or_create_session (some (.ok ⟨"sid", 0, 0⟩)) 50 "f1").2
          [.increment 100 "x1", .increment 200 "x2"])
        300 "f2").1.submission_count :=
  session_window_determinism ⟨"sid", 0, 0⟩ [.increment 100 "x1", .increment 200 "x2"]
    50 300 "f1" "f2" (by decide) (by decide) (by decide)

/-! ## C3 — machine identity stability -/

/-- C3: the machine identifier is a pure function of the sorted factor
pairs (so two consecutive calls in an unchanged environment agree), and
the derivation is total, always producing a canonical 36-character
UUID string. -/
theorem machine_id_stability (e1 e2 : Identity.EnvSnapshot)
    (h : Identity.sortedFactors e1 = Identity.sortedFactors e2) :
    Identity.generate_machine_id e1 = Identity.generate_machine_id e2 ∧
    (Identity.generate_machine_id e1).length = 36 := by
  constructor
  · unfold Identity.generate_machine_id Identity.factor_string
    rw [h]
  · have hlen : (Sha.hexChars (Sha.sha256Bytes
        (Sha.utf8Encode (Identity.factor_string e1)))).length = 64 := by
      rw [Sha.length_hexChars, Sha.length_sha256Bytes]
    have hdash : ("-" : String).length = 1 := rfl
    unfold Identity.generate_machine_id Identity.uuidFormat
    simp [String.length_append, String.length_mk, List.length_take, List.length_drop,
      hlen, hdash]

/-- C3 witness: a concrete environment snapshot compared with itself. -/
theorem machine_id_stability_witness :
    Identity.generate_machine_id
        ⟨"devbox", "x86_64", "", "Linux", "6.1.0", "/home/dev", none, some "GenuineCPU"⟩ =
      Identity.generate_machine_id
        ⟨"devbox", "x86_64", "", "Linux", "6.1.0", "/home/dev", none, some "GenuineCPU"⟩ ∧
    (Identity.generate_machine_id
        ⟨"devbox", "x86_64", "", "Linux", "6.1.0", "/home/dev", none, some "GenuineCPU"⟩).length
      = 36 :=
  machine_id_stability
    ⟨"devbox", "x86_64", "", "Linux", "6.1.0", "/home/dev", none, some "GenuineCPU"⟩
    ⟨"devbox", "x86_64", "", "Linux", "6.1.0", "/home/dev", none, some "GenuineCPU"⟩ rfl

/-! ## C1 — error shape of the Remote Client operations -/

theorem postAndParse_transport (req : Request) (http : Http) (e : String)
    (h : http req = .error e) :
    Client.postAndParse req http = (errorObj e, [req]) := by
  simp [Client.postAndParse, h]

theorem postAndParse_non2xx (req : Request) (http : Http) (r : HttpResponse)
    (h : http req = .ok r) (hr : is2xx r.status = false) :
    Client.postAndParse req http =
      (errorObj ("HTTP status error " ++ toString r.status), [req]) := by
  simp [Client.postAndParse, h, hr]

theorem postAndParse_badbody (req : Request) (http : Http) (st : Nat) (pe : String)
    (h : http req = .ok ⟨st, .error pe⟩) (hs : is2xx st = true) :
    Client.postAndParse req http = (errorObj pe, [req]) := by
  simp [Client.postAndParse, h, hs]

theorem report_issue_submit_transport (c : Client.Ctx) (now_iso issue : String)
    (em cx : Option String) (asol : Option (List String)) (http : Http) (e : String)
    (h : http (Client.report_issue_request c now_iso issue em cx asol) = .error e) :
    (Client.report_issue c now_iso issue em cx asol http).1 = errorObj e := by
  simp [Client.report_issue, h]

theorem hasErrorString_fail (e : String) :
    hasErrorString (.obj [("success", JValue.bool false), ("error", JValue.str e)]) :=
  ⟨[("success", .bool false), ("error", .str e)], e, rfl, by simp [jLookup]⟩

/-- C1 (amended): no Remote Client operation ever raises (all are total
result mappings), and the `error`-mapping guarantee holds for: every
operation on a transport failure except `report_issue` (where only the
submit call raising produces it — a failed search is absorbed);
`test_connection`, `search_knowledge`, `add_pattern`, `get_suggestions`
and `get_stats` on a non-2xx status; those five plus
`activate_privileged_mode` on a deserialization failure.
(`activate_privileged_mode` on a non-2xx response instead returns the
server body unchanged — see the counterexample.) -/
theorem remote_client_error_shape (c : Client.Ctx)
    (now_iso query nm catg prob sol ctxt secret issue : String)
    (cat lang ce lg ft lg2 em cx : Option String)
    (tags fw asol : Option (List String))
    (e : String) (r : HttpResponse) (hr : is2xx r.status = false)
    (st : Nat) (pe : String) (hs : is2xx st = true) (st2 : Nat)
    (http : Http)
    (hsub : http (Client.report_issue_request c now_iso issue em cx asol) = .error e) :
    hasErrorString (Client.test_connection c (fun _ => .error e)).1 ∧
    hasErrorString (Client.search_knowledge c query cat lang 10 (fun _ => .error e)).1 ∧
    hasErrorString
      (Client.add_pattern c now_iso nm catg prob sol ce lg tags (fun _ => .error e)).1 ∧
    hasErrorString (Client.get_suggestions c ctxt ft lg2 fw (fun _ => .error e)).1 ∧
    hasErrorString (Client.get_stats c (fun _ => .error e)).1 ∧
    hasErrorString (Client.activate_privileged_mode c secret (fun _ => .error e)).1 ∧
    hasErrorString (Client.report_issue c now_iso issue em cx asol http).1 ∧
    hasErrorString (Client.test_connection c (fun _ => .ok r)).1 ∧
    hasErrorString (Client.search_knowledge c query cat lang 10 (fun _ => .ok r)).1 ∧
    hasErrorString
      (Client.add_pattern c now_iso nm catg prob sol ce lg tags (fun _ => .ok r)).1 ∧
    hasErrorString (Client.get_suggestions c ctxt ft lg2 fw (fun _ => .ok r)).1 ∧
    hasErrorString (Client.get_stats c (fun _ => .ok r)).1 ∧
    hasErrorString (Client.test_connection c (fun _ => .ok ⟨200, .error pe⟩)).1 ∧
    hasErrorString
      (Client.search_knowledge c query cat lang 10 (fun _ => .ok ⟨st, .error pe⟩)).1 ∧
    hasErrorString (Client.add_pattern c now_iso nm catg prob sol ce lg tags
      (fun _ => .ok ⟨st, .error pe⟩)).1 ∧
    hasErrorString (Client.get_suggestions c ctxt ft lg2 fw (fun _ => .ok ⟨st, .error pe⟩)).1 ∧
    hasErrorString (Client.get_stats c (fun _ => .ok ⟨st, .error pe⟩)).1 ∧
    hasErrorString
      (Client.activate_privileged_mode c secret (fun _ => .ok ⟨st2, .error pe⟩)).1 := by
  have h200 : r.status ≠ 200 := by
    intro hh; rw [hh] at hr; simp [is2xx] at hr
  refine ⟨?_, ?_, ?_, ?_, ?_, ?_, ?_, ?_, ?_, ?_, ?_, ?_, ?_, ?_, ?_, ?_, ?_, ?_⟩
  · exact hasErrorString_fail e
  · simp only [Client.search_knowledge, postAndParse_transport
      (Client.search_request c query cat lang 10) (fun _ => .error e) e rfl]
    exact errorObj_hasErrorString e
  · simp only [Client.add_pattern, postAndParse_transport
      (Client.add_pattern_request c now_iso nm catg prob sol ce lg tags)
      (fun _ => .error e) e rfl]
    exact errorObj_hasErrorString e
  · simp only [Client.get_suggestions, postAndParse_transport
      (Client.suggestions_request c ctxt ft lg2 fw) (fun _ => .error e) e rfl]
    exact errorObj_hasErrorString e
  · simp only [Client.get_stats, postAndParse_transport
      ⟨"GET", c.api_url ++ "/api/client/stats", .null⟩ (fun _ => .error e) e rfl]
    exact errorObj_hasErrorString e
  · exact errorObj_hasErrorString e
  · rw [show (Client.report_issue c now_iso issue em cx asol http).1 = errorObj e from
      report_issue_submit_transport c now_iso issue em cx asol http e hsub]
    exact errorObj_hasErrorString e
  · simp only [Client.test_connection, if_neg h200]
    exact hasErrorString_fail _
  · simp only [Client.search_knowledge, postAndParse_non2xx
      (Client.search_request c query cat lang 10) (fun _ => .ok r) r rfl hr]
    exact errorObj_hasErrorString _
  · simp only [Client.add_pattern, postAndParse_non2xx
      (Client.add_pattern_request c now_iso nm catg prob sol ce lg tags)
      (fun _ => .ok r) r rfl hr]
    exact errorObj_hasErrorString _
  · simp only [Client.get_suggestions, postAndParse_non2xx
      (Client.suggestions_request c ctxt ft lg2 fw) (fun _ => .ok r) r rfl hr]
    exact errorObj_hasErrorString _
  · simp only [Client.get_stats, postAndParse_non2xx
      ⟨"GET", c.api_url ++ "/api/client/stats", .null⟩ (fun _ => .ok r) r rfl hr]
    exact errorObj_hasErrorString _
  · exact hasErrorString_fail pe
  · simp only [Client.search_knowledge, postAndParse_badbody
      (Client.search_request c query cat lang 10)
      (fun _ => .ok ⟨st, .error pe⟩) st pe rfl hs]
    exact errorObj_hasErrorString pe
  · simp only [Client.add_pattern, postAndParse_badbody
      (Client.add_pattern_request c now_iso nm catg prob sol ce lg tags)
      (fun _ => .ok ⟨st, .error pe⟩) st pe rfl hs]
    exact errorObj_hasErrorString pe
  · simp only [Client.get_suggestions, postAndParse_badbody
      (Client.suggestions_request c ctxt ft lg2 fw)
      (fun _ => .ok ⟨st, .error pe⟩) st pe rfl hs]
    exact errorObj_hasErrorString pe
  · simp only [Client.get_stats, postAndParse_badbody
      ⟨"GET", c.api_url ++ "/api/client/stats", .null⟩
      (fun _ => .ok ⟨st, .error pe⟩) st pe rfl hs]
    exact errorObj_hasErrorString pe
  · by_cases hstat : st2 = 200
    · subst hstat; exact errorObj_hasErrorString pe
    · simp only [Client.activate_privileged_mode, hstat, if_false]
      exact errorObj_hasErrorString pe

/-- A client fixture. -/
def cctx : Client.Ctx := ⟨"https://api.example.test"⟩

/-- C1 counterexample: `activate_privileged_mode` with a 403 response
whose JSON body is the empty object returns that body unchanged — a
mapping with NO `error` key — refuting the claim that every operation
returns an `error` mapping on every non-2xx status. -/
theorem remote_client_error_shape_cex :
    (Client.activate_privileged_mode cctx "secret"
      (fun _ => .ok ⟨403, .ok (.obj [])⟩)).1 = .obj [] ∧
    jGet (Client.activate_privileged_mode cctx "secret"
      (fun _ => .ok ⟨403, .ok (.obj [])⟩)).1 "error" = none :=
  ⟨rfl, rfl⟩

/-- C1 witness: a 500 search response and a raising issue submit, both
yielding `error` mappings. -/
theorem remote_client_error_shape_witness :
    hasErrorString
      (Client.search_knowledge cctx "q" none none 10 (fun _ => .ok ⟨500, .ok .null⟩)).1 ∧
    hasErrorString
      (Client.report_issue cctx "2025-06-01T12:00:00" "deploy fails" none none none
        (fun _ => .error "connection refused")).1 := by
  have h := remote_client_error_shape cctx
    "2025-06-01T12:00:00" "q" "nm" "catg" "prob" "sol" "ctxt" "secret" "deploy fails"
    none none none none none none none none
    none none none
    "connection refused" ⟨500, .ok .null⟩ (by decide)
    200 "Expecting value: line 1 column 1 (char 0)" (by decide) 204
    (fun _ => .error "connection refused") rfl
  obtain ⟨-, -, -, -, -, -, h7, -, h9, -⟩ := h
  exact ⟨h9, h7⟩

/-! ## C6 — report_issue degrade path -/

/-- C6 (amended: the degrade guarantee holds whenever the submit call
yields an HTTP response; a submit call that itself raises — a transport
failure — instead produces the `error` mapping, see the
counterexample): `report_issue` performs the search first and the
submit second, and when the submit returns any response at all the
result carries the search results as `existing_solutions`, with the
submit status reduced to the boolean `issue_reported`. -/
theorem report_issue_degrade (c : Client.Ctx) (now_iso issue : String)
    (em cx : Option String) (asol : Option (List String)) (http : Http)
    (rs : List JValue) (r : HttpResponse)
    (hsearch : http (Client.search_request c issue (some "troubleshooting") none 10) =
      .ok ⟨200, .ok (.obj [("results", .list rs)])⟩)
    (hsubmit : http (Client.report_issue_request c now_iso issue em cx asol) = .ok r) :
    Client.report_issue c now_iso issue em cx asol http =
      (.obj [("existing_solutions", .list rs),
             ("issue_reported", .bool (r.status = 200 || r.status = 201))],
       [Client.search_request c issue (some "troubleshooting") none 10,
        Client.report_issue_request c now_iso issue em cx asol]) := by
  have hsk : Client.search_knowledge c issue (some "troubleshooting") none 10 http =
      (.obj [("results", .list rs)],
       [Client.search_request c issue (some "troubleshooting") none 10]) := by
    simp [Client.search_knowledge, Client.postAndParse, hsearch, is2xx]
  simp [Client.report_issue, hsk, hsubmit, jLookup]

/-- An oracle whose search succeeds with two results while the issue
submit raises a transport error. -/
def reportIssueCexHttp : Http := fun q =>
  if q.url = "https://api.example.test/api/client/issues" then .error "connection refused"
  else .ok ⟨200, .ok (.obj [("results", .list [.obj [], .obj []])])⟩

/-- C6 counterexample: when the submit call raises (rather than
returning a non-2xx response), `report_issue` does NOT return the
search's two results — the whole operation collapses to the `error`
mapping, refuting "returns the search's results list regardless of
whether the submit step succeeded". -/
theorem report_issue_degrade_cex :
    (Client.report_issue cctx "2025-06-01T12:00:00" "The deployment fails" none none none
       reportIssueCexHttp).1 = errorObj "connection refused" ∧
    jGet (Client.report_issue cctx "2025-06-01T12:00:00" "The deployment fails" none none none
       reportIssueCexHttp).1 "existing_solutions" = none :=
  ⟨rfl, rfl⟩

/-- An oracle whose search succeeds with two results while the issue
submit returns a 500. -/
def reportIssueWitnessHttp : Http := fun q =>
  if q.url = "https://api.example.test/api/client/issues" then .ok ⟨500, .ok .null⟩
  else .ok ⟨200, .ok (.obj [("results", .list [.obj [], .obj []])])⟩

/-- C6 witness: two search results and a non-2xx submit give
`existing_solutions` of length 2 and `issue_reported: false`, with the
search request attempted before the submit request. -/
theorem report_issue_degrade_witness :
    Client.report_issue cctx "2025-06-01T12:00:00" "The deployment fails" none none none
        reportIssueWitnessHttp =
      (.obj [("existing_solutions", .list [.obj [], .obj []]),
             ("issue_reported", .bool false)],
       [Client.search_request cctx "The deployment fails" (some "troubleshooting") none 10,
        Client.report_issue_request cctx "2025-06-01T12:00:00" "The deployment fails"
          none none none]) :=
  report_issue_degrade cctx "2025-06-01T12:00:00" "The deployment fails" none none none
    reportIssueWitnessHttp [.obj [], .obj []] ⟨500, .ok .null⟩ rfl rfl
